import Mathlib

/-!
# Verification of the ACT8600 PMIC regulator driver

Shallow embedding of `drivers/regulator/act8600-regulator.c`:
the piecewise-linear voltage tables, the USB-charger current-limit
operations, the enable-polarity handling and the probe (match-and-bind)
control flow, together with proofs of the specified properties.

Generic regulator-framework helpers (linear-range lookup, regmap enable
helpers, devm cleanup) and the chip header constants are not part of the
extracted source; where a claim depends on them they are modelled from the
specification and marked as such in their doc comments.
-/

set_option maxRecDepth 100000

namespace Act8600

/-! ## Linear range tables (from `act8600-regulator.c`) -/

/-- One entry of a `regulator_linear_range` array:
`REGULATOR_LINEAR_RANGE(min_uV, min_sel, max_sel, uV_step)`. -/
structure LinearRange where
  min_uV : Nat
  min_sel : Nat
  max_sel : Nat
  uV_step : Nat
deriving DecidableEq, Repr

/-- `act8600_voltage_ranges`: the table shared by the three DCDC outputs and
LDO outputs 5–8. -/
def act8600_voltage_ranges : List LinearRange :=
  [⟨600000, 0, 23, 25000⟩,
   ⟨1200000, 24, 47, 50000⟩,
   ⟨2400000, 48, 63, 100000⟩]

/-- `act8600_voltage_ranges_reg9`: fixed 1.8 V single-selector table for LDO9. -/
def act8600_voltage_ranges_reg9 : List LinearRange :=
  [⟨1800000, 0, 0, 0⟩]

/-- `act8600_voltage_ranges_reg10`: fixed 1.2 V single-selector table for LDO10. -/
def act8600_voltage_ranges_reg10 : List LinearRange :=
  [⟨1200000, 0, 0, 0⟩]

/-- `act8600_sudcdc_voltage_ranges`: the step-up/down converter table.  Note the
overlapping selector 191 boundary between the third and fourth ranges,
reproduced from the source as-is. -/
def act8600_sudcdc_voltage_ranges : List LinearRange :=
  [⟨3000000, 0, 63, 0⟩,
   ⟨3000000, 64, 159, 100000⟩,
   ⟨12600000, 160, 191, 200000⟩,
   ⟨19000000, 191, 255, 400000⟩]

/-- The four range tables appearing in the driver's output descriptors. -/
def act8600_all_tables : List (List LinearRange) :=
  [act8600_voltage_ranges, act8600_voltage_ranges_reg9,
   act8600_voltage_ranges_reg10, act8600_sudcdc_voltage_ranges]

/-- Modelled from the spec: `value_at(selector)` of §4.1 (the framework helper
`regulator_list_voltage_linear_range` is not part of the extracted source).
Scan ranges in order; for the first range whose `[min_sel, max_sel]` contains
the selector return `min_uV + (selector - min_sel) * uV_step`; otherwise fail. -/
def value_at : List LinearRange → Nat → Option Nat
  | [], _ => none
  | r :: rs, s =>
    if r.min_sel ≤ s ∧ s ≤ r.max_sel then
      some (r.min_uV + (s - r.min_sel) * r.uV_step)
    else
      value_at rs s

/-- The largest value representable by a range: its value at `max_sel`. -/
def LinearRange.max_uV (r : LinearRange) : Nat :=
  r.min_uV + (r.max_sel - r.min_sel) * r.uV_step

/-- Modelled from the spec: `selector_for(target_value)` of §4.1 (the framework
helper `regulator_map_voltage_linear_range` is not part of the extracted
source).  Scan ranges in order; for the first range containing the target
between its min and max bound inclusive, return the smallest selector whose
value is ≥ the target (round up); a zero-step range matches only its exact
fixed value and yields its single (minimum) selector; otherwise fail. -/
def selector_for : List LinearRange → Nat → Option Nat
  | [], _ => none
  | r :: rs, v =>
    if r.min_uV ≤ v ∧ v ≤ r.max_uV then
      if r.uV_step = 0 then
        some r.min_sel
      else
        some (r.min_sel + (v - r.min_uV + r.uV_step - 1) / r.uV_step)
    else
      selector_for rs v

/-- Round trip of a selector through `value_at` then `selector_for`. -/
def roundTrip (t : List LinearRange) (s : Nat) : Option Nat :=
  (value_at t s).bind (selector_for t)

example : value_at act8600_voltage_ranges 25 = some 1250000 := by decide
example : selector_for act8600_voltage_ranges 1250000 = some 25 := by decide
example : selector_for act8600_voltage_ranges 700000 = some 4 := by decide
example : value_at act8600_sudcdc_voltage_ranges 64 = some 3000000 := by decide
example : selector_for act8600_sudcdc_voltage_ranges 3000000 = some 0 := by decide
example : roundTrip act8600_sudcdc_voltage_ranges 191 = some 191 := by decide

/-! ## USB-charger current-limit operations (from `act8600-regulator.c`)

The chip header `linux/regulator/act8600.h` is not part of the extracted
source, so the exact bit position of `ACT8600_DBILIMQ3` within register
`ACT8600_OTG0` is unknown.  Modelled from the spec ("one dedicated bit of one
register", 8-bit registers): the mask is `1 <<< bit` for an arbitrary
`bit < 8`, and the modelled operations take `bit` as a parameter.  The
register transport is assumed to succeed (I/O failure paths only propagate
the transport's error before touching the decision logic). -/

/-- The mask of a single register bit. -/
def bitMask (bit : Nat) : Nat := 1 <<< bit

/-- C's `~mask` on a 32-bit `unsigned int`, as a `Nat` of the low 32 bits. -/
def complement32 (mask : Nat) : Nat := (2 ^ 32 - 1) ^^^ mask

/-- Outcome of `act8600_usb_charger_set_current_limit`: the C return value
and the sequence of values written to `ACT8600_OTG0` (`regmap_write` calls),
in order. -/
structure ChargerResult where
  ret : Int
  writes : List Nat
deriving DecidableEq, Repr

/-- `act8600_usb_charger_set_current_limit`, for a successful register read of
the byte `otg0` from `ACT8600_OTG0` and a successful write.  Mirrors the C
conditional chain exactly, including the redundant final `max_uA <= 800000`
guard. -/
def act8600_usb_charger_set_current_limit (bit : Nat) (otg0 : Nat)
    (max_uA : Int) : ChargerResult :=
  if max_uA ≤ 0 ∨ 800000 < max_uA then
    ⟨-22, []⟩
  else
    let data :=
      if max_uA ≤ 400000 then otg0 &&& complement32 (bitMask bit)
      else if max_uA ≤ 800000 then otg0 ||| bitMask bit
      else otg0
    ⟨0, [data]⟩

/-- `act8600_usb_charger_get_current_limit`, for a successful register read of
the byte `otg0`: 800000 if the `DBILIMQ3` bit is set, else 400000. -/
def act8600_usb_charger_get_current_limit (bit : Nat) (otg0 : Nat) : Int :=
  if otg0 &&& bitMask bit ≠ 0 then 800000 else 400000

/-- The register value after a sequence of writes (last write wins;
the initial value if none occurred). -/
def applyWrites (otg0 : Nat) (ws : List Nat) : Nat := ws.foldl (fun _ w => w) otg0

example :
    act8600_usb_charger_set_current_limit 7 255 300000 = ⟨0, [127]⟩ := by decide
example :
    act8600_usb_charger_set_current_limit 7 0 500000 = ⟨0, [128]⟩ := by decide
example :
    act8600_usb_charger_set_current_limit 7 37 900000 = ⟨-22, []⟩ := by decide

/-! ## Output descriptors (from the `act8600_reg` array) -/

/-- The fields of a `struct regulator_desc` entry that the verified claims
depend on: the output's name, its numeric id, which linear-range table it
uses (`none` for the non-voltage outputs VBUS and USB_CHARGER), and whether
its enable bit has inverted polarity. -/
structure RegulatorDesc where
  name : String
  id : Nat
  linear_ranges : Option (List LinearRange)
  enable_is_inverted : Bool
deriving DecidableEq, Repr

/-- The `act8600_reg` descriptor array, in source order. -/
def act8600_reg : List RegulatorDesc :=
  [⟨"DCDC_REG1", 0, some act8600_voltage_ranges, false⟩,
   ⟨"DCDC_REG2", 1, some act8600_voltage_ranges, false⟩,
   ⟨"DCDC_REG3", 2, some act8600_voltage_ranges, false⟩,
   ⟨"SUDCDC_REG4", 3, some act8600_sudcdc_voltage_ranges, false⟩,
   ⟨"LDO_REG5", 4, some act8600_voltage_ranges, false⟩,
   ⟨"LDO_REG6", 5, some act8600_voltage_ranges, false⟩,
   ⟨"LDO_REG7", 6, some act8600_voltage_ranges, false⟩,
   ⟨"LDO_REG8", 7, some act8600_voltage_ranges, false⟩,
   ⟨"LDO_REG9", 8, some act8600_voltage_ranges_reg9, false⟩,
   ⟨"LDO_REG10", 9, some act8600_voltage_ranges_reg10, false⟩,
   ⟨"VBUS", 10, none, false⟩,
   ⟨"USB_CHARGER", 11, none, true⟩]

/-- The USB charger descriptor (last entry of `act8600_reg`): enable register
`ACT8600_APCH0`, enable mask `ACT8600_SUSCHG`, `enable_is_inverted = true`. -/
def usb_charger_desc : RegulatorDesc :=
  ⟨"USB_CHARGER", 11, none, true⟩

/-- Name of the descriptor at index `i` of `act8600_reg`. -/
def regName (i : Nat) : String := ((act8600_reg.getD i usb_charger_desc).name)

example : usb_charger_desc = act8600_reg.getD 11 usb_charger_desc := by decide
example : regName 3 = "SUDCDC_REG4" := by decide

/-! ## Enable operations

Modelled from the spec (§4.2): the framework helpers
`regulator_enable_regmap` / `regulator_is_enabled_regmap` are not part of the
extracted source.  `set_enabled` writes the enable bit applying the polarity
XOR (read-modify-write preserving other bits); `is_enabled` reads the enable
bit and XORs with `enable_polarity == inverted`.  As with the charger mask,
the bit position of the enable mask within its register is a parameter. -/

/-- Modelled from the spec: `set_enabled(descriptor, b)` applied to the byte
`reg` currently in the descriptor's enable register; returns the written
byte. -/
def set_enabled (bit : Nat) (d : RegulatorDesc) (reg : Nat) (b : Bool) : Nat :=
  if Bool.xor b d.enable_is_inverted then reg ||| bitMask bit
  else reg &&& complement32 (bitMask bit)

/-- Modelled from the spec: `is_enabled(descriptor)` applied to the byte `reg`
currently in the descriptor's enable register. -/
def is_enabled (bit : Nat) (d : RegulatorDesc) (reg : Nat) : Bool :=
  Bool.xor (reg &&& bitMask bit != 0) d.enable_is_inverted

example : set_enabled 0 usb_charger_desc 255 true = 254 := by decide
example : is_enabled 0 usb_charger_desc 254 = true := by decide

/-! ## The probe (`act8600_pmic_probe`)

The probe body is in the extracted source; its external collaborators
(`of_get_child_by_name`, `of_regulator_match`, `devm_kzalloc`,
`devm_regmap_init_i2c`, `devm_regulator_register`) are not, so their outcomes
are supplied by an environment record.  Modelled from the spec: the header
constant `ACT8600_REG_NUM` is the fixed descriptor cardinality 12, and devm
cleanup releases every regulator registered by a probe that returns an error
(so a failed probe leaves no outputs registered). -/

/-- `ACT8600_REG_NUM`.  Modelled from the spec: the chip header is not in the
extracted source; the spec fixes the descriptor cardinality at 12, matching
the 12 entries of `act8600_reg` and `act8600_matches`. -/
def ACT8600_REG_NUM : Nat := 12

/-- `act8600_matches`: the fixed match-table names, indexed by regulator id. -/
def act8600_matches : List String :=
  ["DCDC_REG1", "DCDC_REG2", "DCDC_REG3", "SUDCDC_REG4",
   "LDO_REG5", "LDO_REG6", "LDO_REG7", "LDO_REG8",
   "LDO_REG9", "LDO_REG10", "VBUS", "USB_CHARGER"]

/-- Outcomes of the probe's external collaborator calls. -/
structure ProbeEnv where
  /-- `of_get_child_by_name(dev->of_node, "regulators")` finds the subnode. -/
  hasRegulatorsNode : Bool
  /-- Return value of `of_regulator_match`: a match count, or a negative
  error code. -/
  matchResult : Int
  /-- `devm_kzalloc` of the `regulators` array succeeds. -/
  kzallocRegulatorsOk : Bool
  /-- `devm_kzalloc` of the `act8600` context succeeds. -/
  kzallocAct8600Ok : Bool
  /-- `devm_regmap_init_i2c`: the register-map handle, or a negative error. -/
  regmapResult : Except Int Unit
  /-- `devm_regulator_register` outcome for the descriptor at each index. -/
  registerResult : Nat → Except Int Unit

/-- What `act8600_pmic_probe` did: its return value, the name reported by the
"Failed to register %s" diagnostic (if any), the outputs left registered
after the probe returns (devm releases them all when the probe fails), whether
control reached the `num_regulators > ACT8600_REG_NUM` bounds check, and how
many chip register-map transactions were performed. -/
structure ProbeOutcome where
  ret : Int
  reportedName : Option String
  registeredFinal : List String
  boundsCheckReached : Bool
  registerAccesses : Nat
deriving Repr

/-- The probe's final registration loop (`for i = 0; i < ACT8600_REG_NUM`):
returns the C return value, the reported name on failure, and the registered
outputs remaining afterwards (none when a registration failed, since the
probe's error return makes devm release them). -/
def registerLoop (env : ProbeEnv) : Nat → Nat → List String →
    Int × Option String × List String
  | 0, _, acc => (0, none, acc)
  | n + 1, i, acc =>
    match env.registerResult i with
    | .error e => (e, some (regName i), [])
    | .ok _ => registerLoop env n (i + 1) (acc ++ [regName i])

/-- `act8600_pmic_probe`, following the source control flow step by step:
missing `regulators` subnode → `-EINVAL`; `matched <= 0` → return `matched`
as-is; allocation failure → `-ENOMEM`; `num_regulators > ACT8600_REG_NUM` →
`-EINVAL`; regmap failure → its error; then register the 12 descriptors in
array order, stopping at the first failure.  No path performs a chip
register transaction. -/
def act8600_pmic_probe (env : ProbeEnv) : ProbeOutcome :=
  if !env.hasRegulatorsNode then
    ⟨-22, none, [], false, 0⟩
  else if env.matchResult ≤ 0 then
    ⟨env.matchResult, none, [], false, 0⟩
  else if !env.kzallocRegulatorsOk then
    ⟨-12, none, [], false, 0⟩
  else if (ACT8600_REG_NUM : Int) < env.matchResult then
    ⟨-22, none, [], true, 0⟩
  else if !env.kzallocAct8600Ok then
    ⟨-12, none, [], true, 0⟩
  else
    match env.regmapResult with
    | .error e => ⟨e, none, [], true, 0⟩
    | .ok _ =>
      let t := registerLoop env ACT8600_REG_NUM 0 []
      ⟨t.1, t.2.1, t.2.2, true, 0⟩

/-- The descriptor names from index `i` onwards, `n` of them: the order in
which the registration loop registers outputs. -/
def namesFrom : Nat → Nat → List String
  | _, 0 => []
  | i, n + 1 => regName i :: namesFrom (i + 1) n

/-- An all-successful environment with every output matched. -/
def envAllOk : ProbeEnv :=
  ⟨true, 12, true, true, .ok (), fun _ => .ok ()⟩

/-- The all-successful environment except that `of_regulator_match` matched
zero configuration entries. -/
def envZeroMatches : ProbeEnv :=
  { envAllOk with matchResult := 0 }

example :
    (act8600_pmic_probe envAllOk).registeredFinal = act8600_matches := by decide
example : (act8600_pmic_probe envAllOk).ret = 0 := by decide
example :
    (act8600_pmic_probe { envAllOk with matchResult := 0 }).ret = 0 := by decide
example :
    (act8600_pmic_probe { envAllOk with matchResult := 0
     }).boundsCheckReached = false := by decide

/-! ## Helper lemmas about the bit operations -/

lemma bitMask_eq_pow (bit : Nat) : bitMask bit = 2 ^ bit := by
  simp [bitMask, Nat.shiftLeft_eq]

/-- `data &= ~mask` clears the masked bit. -/
lemma land_comp_self (bit data : Nat) (hb : bit < 32) :
    (data &&& complement32 (bitMask bit)) &&& bitMask bit = 0 := by
  apply Nat.eq_of_testBit_eq
  intro i
  simp only [complement32, bitMask_eq_pow, Nat.testBit_and, Nat.testBit_xor,
    Nat.testBit_two_pow_sub_one, Nat.testBit_two_pow, Nat.zero_testBit]
  by_cases h : bit = i
  · subst h
    simp [Nat.lt_of_lt_of_le hb (Nat.le_refl 32), hb]
  · simp [h]

/-- `data |= mask` sets the masked bit. -/
lemma lor_land_self (bit data : Nat) :
    (data ||| bitMask bit) &&& bitMask bit ≠ 0 := by
  intro h0
  have h := congrArg (fun x => Nat.testBit x bit) h0
  simp [bitMask_eq_pow, Nat.testBit_and, Nat.testBit_or,
    Nat.testBit_two_pow_self] at h

/-- `data &= ~mask` leaves every bit other than the masked one unchanged
(within the 32-bit complement width). -/
lemma testBit_land_comp (bit data i : Nat) (hi : i < 32) (hne : i ≠ bit) :
    (data &&& complement32 (bitMask bit)).testBit i = data.testBit i := by
  simp only [complement32, bitMask_eq_pow, Nat.testBit_and, Nat.testBit_xor,
    Nat.testBit_two_pow_sub_one, Nat.testBit_two_pow_of_ne fun h => hne h.symm]
  simp [hi]

/-- `data |= mask` leaves every bit other than the masked one unchanged. -/
lemma testBit_lor_mask (bit data i : Nat) (hne : i ≠ bit) :
    (data ||| bitMask bit).testBit i = data.testBit i := by
  simp [bitMask_eq_pow, Nat.testBit_or,
    Nat.testBit_two_pow_of_ne fun h => hne h.symm]

/-- A function monotone between consecutive points of `[0, n]` is monotone on
`[0, n]`. -/
lemma monotone_of_step (f : Nat → Nat) (n : Nat)
    (hstep : ∀ s, s < n → f s ≤ f (s + 1)) :
    ∀ s1 s2, s1 ≤ s2 → s2 ≤ n → f s1 ≤ f s2 := by
  intro s1 s2 h12 h2n
  induction s2, h12 using Nat.le_induction with
  | base => exact Nat.le_refl _
  | succ m hm ih =>
    exact Nat.le_trans (ih (by omega)) (hstep m (by omega))

/-- When every registration from index `i` for `n` steps succeeds, the
registration loop returns success with the descriptor names appended in
order. -/
lemma registerLoop_all_ok (env : ProbeEnv) :
    ∀ n i acc, (∀ k, i ≤ k → k < i + n → env.registerResult k = .ok ()) →
      registerLoop env n i acc = (0, none, acc ++ namesFrom i n) := by
  intro n
  induction n with
  | zero => intro i acc _; simp [registerLoop, namesFrom]
  | succ m ih =>
    intro i acc h
    have hi : env.registerResult i = .ok () := h i (Nat.le_refl i) (by omega)
    rw [registerLoop, hi]
    rw [ih (i + 1) (acc ++ [regName i]) fun k hk1 hk2 => h k (by omega) (by omega)]
    simp [namesFrom]

/-- When the first failing registration in the window is at index `j`, the
registration loop stops there, reporting index `j`'s descriptor name, and no
outputs remain registered. -/
lemma registerLoop_first_fail (env : ProbeEnv) :
    ∀ n i acc j e, i ≤ j → j < i + n → env.registerResult j = .error e →
      (∀ k, i ≤ k → k < j → env.registerResult k = .ok ()) →
      registerLoop env n i acc = (e, some (regName j), []) := by
  intro n
  induction n with
  | zero => intro i acc j e h1 h2 _ _; omega
  | succ m ih =>
    intro i acc j e h1 h2 hj hpre
    rcases Nat.eq_or_lt_of_le h1 with heq | hlt
    · subst heq
      rw [registerLoop, hj]
    · have hi : env.registerResult i = .ok () := hpre i (Nat.le_refl i) hlt
      rw [registerLoop, hi]
      exact ih (i + 1) (acc ++ [regName i]) j e hlt (by omega) hj
        fun k hk1 hk2 => hpre k (by omega) hk2

/-- Clearing the `DBILIMQ3` bit makes the charger current-limit read back as
400000. -/
lemma get_after_clear (bit data : Nat) (hb : bit < 32) :
    act8600_usb_charger_get_current_limit bit
      (data &&& complement32 (bitMask bit)) = 400000 := by
  simp [act8600_usb_charger_get_current_limit, land_comp_self bit data hb]

/-- Setting the `DBILIMQ3` bit makes the charger current-limit read back as
800000. -/
lemma get_after_set (bit data : Nat) :
    act8600_usb_charger_get_current_limit bit (data ||| bitMask bit) = 800000 := by
  simp [act8600_usb_charger_get_current_limit, lor_land_self bit data]

/-! ## Claim theorems -/

/-- C1: For the USB charger output, `set_current_limit` fails with
InvalidValue (`-EINVAL`) for every `max_uA ≤ 0` or `max_uA > 800000`; for
every `max_uA` in (0, 400000] it clears the current-limit bit so a subsequent
`get_current_limit` returns 400000; and for every `max_uA` in
(400000, 800000] it sets the bit so a subsequent `get_current_limit` returns
800000. -/
theorem set_then_get_current_limit (bit otg0 : Nat) (hb : bit < 8)
    (max_uA : Int) :
    ((max_uA ≤ 0 ∨ 800000 < max_uA) →
      act8600_usb_charger_set_current_limit bit otg0 max_uA = ⟨-22, []⟩) ∧
    (0 < max_uA → max_uA ≤ 400000 →
      (act8600_usb_charger_set_current_limit bit otg0 max_uA).ret = 0 ∧
      act8600_usb_charger_get_current_limit bit
        (applyWrites otg0
          (act8600_usb_charger_set_current_limit bit otg0 max_uA).writes) =
        400000) ∧
    (400000 < max_uA → max_uA ≤ 800000 →
      (act8600_usb_charger_set_current_limit bit otg0 max_uA).ret = 0 ∧
      act8600_usb_charger_get_current_limit bit
        (applyWrites otg0
          (act8600_usb_charger_set_current_limit bit otg0 max_uA).writes) =
        800000) := by
  refine ⟨fun h => ?_, fun h1 h2 => ?_, fun h1 h2 => ?_⟩
  · simp only [act8600_usb_charger_set_current_limit, if_pos h]
  · have hno : ¬(max_uA ≤ 0 ∨ 800000 < max_uA) := by omega
    simp only [act8600_usb_charger_set_current_limit, if_neg hno, if_pos h2]
    exact ⟨trivial, by simp [applyWrites, get_after_clear bit otg0 (by omega)]⟩
  · have hno : ¬(max_uA ≤ 0 ∨ 800000 < max_uA) := by omega
    have hno2 : ¬(max_uA ≤ 400000) := by omega
    simp only [act8600_usb_charger_set_current_limit, if_neg hno, if_neg hno2,
      if_pos h2]
    exact ⟨trivial, by simp [applyWrites, get_after_set bit otg0]⟩

/-- Witness for C1 at `bit = 7`, `otg0 = 255`, `max_uA = 300000`. -/
theorem set_then_get_current_limit_witness :
    (act8600_usb_charger_set_current_limit 7 255 300000).ret = 0 ∧
    act8600_usb_charger_get_current_limit 7
      (applyWrites 255
        (act8600_usb_charger_set_current_limit 7 255 300000).writes) =
      400000 :=
  (set_then_get_current_limit 7 255 (by decide) 300000).2.1 (by decide)
    (by decide)

/-- C10: a successful `set_current_limit` call on the USB charger performs a
single read-modify-write of `ACT8600_OTG0` that changes at most the
`DBILIMQ3` bit — every other bit of the written byte (including the VBUS
`ONQ1` bit, which lives in the same register) equals the bit read — and a
call that fails with InvalidValue performs no register write, leaving the
register state unchanged. -/
theorem set_current_limit_frame (bit otg0 : Nat) (_hb : bit < 8)
    (max_uA : Int) :
    ((act8600_usb_charger_set_current_limit bit otg0 max_uA).ret = 0 →
      ∀ w, (act8600_usb_charger_set_current_limit bit otg0 max_uA).writes = [w] →
        ∀ i, i < 8 → i ≠ bit → w.testBit i = otg0.testBit i) ∧
    ((act8600_usb_charger_set_current_limit bit otg0 max_uA).ret ≠ 0 →
      (act8600_usb_charger_set_current_limit bit otg0 max_uA).writes = [] ∧
      applyWrites otg0
        (act8600_usb_charger_set_current_limit bit otg0 max_uA).writes =
        otg0) := by
  by_cases hv : max_uA ≤ 0 ∨ 800000 < max_uA
  · refine ⟨fun hr w hw i _ _ => ?_, fun _ => ?_⟩
    · simp [act8600_usb_charger_set_current_limit, if_pos hv] at hw
    · simp [act8600_usb_charger_set_current_limit, if_pos hv, applyWrites]
  · refine ⟨fun hr w hw i hi hne => ?_, fun hr => ?_⟩
    · by_cases hlo : max_uA ≤ 400000
      · simp only [act8600_usb_charger_set_current_limit, if_neg hv,
          if_pos hlo, List.cons.injEq, and_true] at hw
        subst hw
        exact testBit_land_comp bit otg0 i (by omega) hne
      · have hhi : max_uA ≤ 800000 := by omega
        simp only [act8600_usb_charger_set_current_limit, if_neg hv,
          if_neg hlo, if_pos hhi, List.cons.injEq, and_true] at hw
        subst hw
        exact testBit_lor_mask bit otg0 i hne
    · exact absurd (by simp [act8600_usb_charger_set_current_limit,
        if_neg hv]) hr

/-- Witness for C10 at `bit = 7`, `otg0 = 255`, `max_uA = 300000`, checking
bit 0 of the written byte 127. -/
theorem set_current_limit_frame_witness :
    (127 : Nat).testBit 0 = (255 : Nat).testBit 0 :=
  (set_current_limit_frame 7 255 (by decide) 300000).1 (by decide) 127
    (by decide) 0 (by decide) (by decide)

/-- C8: the USB charger output has inverted enable polarity, so
`set_enabled(true)` clears the `SUSCHG` enable bit in `ACT8600_APCH0` rather
than setting it, and `is_enabled()` still reports `true` afterwards, both
operations applying the XOR with the inverted-polarity flag. -/
theorem usb_charger_enable_inverted (bit reg : Nat) (hb : bit < 8) :
    usb_charger_desc.enable_is_inverted = true ∧
    set_enabled bit usb_charger_desc reg true &&& bitMask bit = 0 ∧
    is_enabled bit usb_charger_desc
      (set_enabled bit usb_charger_desc reg true) = true := by
  have hset : set_enabled bit usb_charger_desc reg true =
      reg &&& complement32 (bitMask bit) := by
    simp [set_enabled, usb_charger_desc]
  refine ⟨rfl, ?_, ?_⟩
  · rw [hset]
    exact land_comp_self bit reg (by omega)
  · rw [hset]
    simp [is_enabled, usb_charger_desc, land_comp_self bit reg (by omega)]

/-- Witness for C8 at `bit = 0`, `reg = 255`. -/
theorem usb_charger_enable_inverted_witness :
    usb_charger_desc.enable_is_inverted = true ∧
    set_enabled 0 usb_charger_desc 255 true &&& bitMask 0 = 0 ∧
    is_enabled 0 usb_charger_desc
      (set_enabled 0 usb_charger_desc 255 true) = true :=
  usb_charger_enable_inverted 0 255 (by decide)

/-- C2 counterexample: selector 64 of the SUDCDC table lies inside the second
range's `[min_selector, max_selector]` and that range's step is not zero, yet
`selector_for (value_at 64)` resolves to selector 0, not 64: `value_at 64` is
3000000, which the in-order scan of `selector_for` first finds in the
zero-step fixed range (selectors 0–63). -/
theorem sudcdc_roundtrip_counterexample :
    (act8600_sudcdc_voltage_ranges.getD 1 ⟨0, 0, 0, 0⟩).uV_step ≠ 0 ∧
    (act8600_sudcdc_voltage_ranges.getD 1 ⟨0, 0, 0, 0⟩).min_sel ≤ 64 ∧
    64 ≤ (act8600_sudcdc_voltage_ranges.getD 1 ⟨0, 0, 0, 0⟩).max_sel ∧
    value_at act8600_sudcdc_voltage_ranges 64 = some 3000000 ∧
    roundTrip act8600_sudcdc_voltage_ranges 64 = some 0 := by decide

/-- C2 (amended): for every range table of the driver and every selector `s`
inside a range's `[min_selector, max_selector]`,
`selector_for (value_at s) = s`, except in a zero-step fixed range — where
every value resolves to that range's single (minimum) selector — and except
SUDCDC selector 64, whose value 3000000 coincides with the zero-step fixed
range's value and therefore resolves to selector 0. -/
theorem roundtrip_amended :
    ∀ t ∈ act8600_all_tables, ∀ r ∈ t, ∀ s < 256,
      r.min_sel ≤ s → s ≤ r.max_sel →
      (r.uV_step = 0 → roundTrip t s = some r.min_sel) ∧
      (r.uV_step ≠ 0 → ¬(t = act8600_sudcdc_voltage_ranges ∧ s = 64) →
        roundTrip t s = some s) := by decide

/-- Witness for C2 (amended) at the DCDC table, first range, selector 5. -/
theorem roundtrip_amended_witness :
    roundTrip act8600_voltage_ranges 5 = some 5 :=
  (roundtrip_amended act8600_voltage_ranges (by decide)
    ⟨600000, 0, 23, 25000⟩ (by decide) 5 (by decide) (by decide) (by decide)).2
    (by decide) (by decide)

/-- C3: on both multi-range tables (the shared DCDC/LDO table, covered
selectors 0–63, and the SUDCDC table, covered selectors 0–255, including the
overlapping selector-191 boundary), `value_at` is monotonically non-decreasing
in the selector. -/
theorem value_at_monotone (s1 s2 : Nat) :
    (s1 ≤ s2 → s2 ≤ 63 →
      (value_at act8600_voltage_ranges s1).getD 0 ≤
        (value_at act8600_voltage_ranges s2).getD 0) ∧
    (s1 ≤ s2 → s2 ≤ 255 →
      (value_at act8600_sudcdc_voltage_ranges s1).getD 0 ≤
        (value_at act8600_sudcdc_voltage_ranges s2).getD 0) := by
  constructor
  · intro h12 h2
    exact monotone_of_step (fun s => (value_at act8600_voltage_ranges s).getD 0)
      63 (by decide) s1 s2 h12 h2
  · intro h12 h2
    exact monotone_of_step
      (fun s => (value_at act8600_sudcdc_voltage_ranges s).getD 0)
      255 (by decide) s1 s2 h12 h2

/-- Witness for C3 at `s1 = 63 ≤ s2 = 64` on both tables. -/
theorem value_at_monotone_witness :
    (value_at act8600_voltage_ranges 62).getD 0 ≤
      (value_at act8600_voltage_ranges 63).getD 0 ∧
    (value_at act8600_sudcdc_voltage_ranges 63).getD 0 ≤
      (value_at act8600_sudcdc_voltage_ranges 64).getD 0 :=
  ⟨(value_at_monotone 62 63).1 (by decide) (by decide),
   (value_at_monotone 63 64).2 (by decide) (by decide)⟩

/-- C7: on the DCDC table, `selector_for` maps a requested 1250000 µV to
selector 25 and a requested 700000 µV to selector 4. -/
theorem dcdc_selector_examples :
    selector_for act8600_voltage_ranges 1250000 = some 25 ∧
    selector_for act8600_voltage_ranges 700000 = some 4 := by decide

/-- C6: when the configuration has no `regulators` subnode, the probe fails
with `-EINVAL` (ConfigError), registers nothing, and performs no chip
register transaction. -/
theorem probe_missing_regulators_node (env : ProbeEnv)
    (h : env.hasRegulatorsNode = false) :
    (act8600_pmic_probe env).ret = -22 ∧
    (act8600_pmic_probe env).registeredFinal = [] ∧
    (act8600_pmic_probe env).registerAccesses = 0 := by
  simp [act8600_pmic_probe, h]

/-- Witness for C6 with the otherwise all-successful environment. -/
theorem probe_missing_regulators_node_witness :
    (act8600_pmic_probe { envAllOk with hasRegulatorsNode := false }).ret =
      -22 ∧
    (act8600_pmic_probe { envAllOk with hasRegulatorsNode := false
      }).registeredFinal = [] ∧
    (act8600_pmic_probe { envAllOk with hasRegulatorsNode := false
      }).registerAccesses = 0 :=
  probe_missing_regulators_node _ rfl

/-- C9: when the matched count exceeds the fixed descriptor cardinality
`ACT8600_REG_NUM = 12` (and the preceding allocation succeeded), the probe
fails with `-EINVAL` (ConfigError) at the bounds check. -/
theorem probe_bounds_check (env : ProbeEnv)
    (h1 : env.hasRegulatorsNode = true)
    (h2 : (ACT8600_REG_NUM : Int) < env.matchResult)
    (h3 : env.kzallocRegulatorsOk = true) :
    (act8600_pmic_probe env).ret = -22 ∧
    (act8600_pmic_probe env).boundsCheckReached = true ∧
    (act8600_pmic_probe env).registeredFinal = [] := by
  have h2' : (12 : Int) < env.matchResult := by
    simpa [ACT8600_REG_NUM] using h2
  have hm : ¬env.matchResult ≤ 0 := by omega
  simp [act8600_pmic_probe, h1, h3, hm, ACT8600_REG_NUM, h2']

/-- Witness for C9 with a matched count of 13. -/
theorem probe_bounds_check_witness :
    (act8600_pmic_probe { envAllOk with matchResult := 13 }).ret = -22 ∧
    (act8600_pmic_probe { envAllOk with matchResult := 13
      }).boundsCheckReached = true ∧
    (act8600_pmic_probe { envAllOk with matchResult := 13
      }).registeredFinal = [] :=
  probe_bounds_check _ rfl (by decide) rfl

/-- C4 counterexample: with the `regulators` subnode present and a match
count of zero (and every later collaborator able to succeed), the probe
returns 0 immediately, registering nothing and never reaching the bounds
check — so initialization does not proceed for a zero match count, contrary
to the claim. -/
theorem probe_zero_matches_counterexample :
    (act8600_pmic_probe envZeroMatches).ret = 0 ∧
    (act8600_pmic_probe envZeroMatches).registeredFinal = [] ∧
    (act8600_pmic_probe envZeroMatches).boundsCheckReached = false := by
  decide

/-- C4 (amended): a negative return from the match operation makes the probe
fail with that error before the bounds check; a zero match count makes the
probe return 0 (success) immediately, registering nothing and not reaching
the bounds check; only a positive match count lets initialization proceed to
the bounds check. -/
theorem probe_match_step (env : ProbeEnv)
    (h1 : env.hasRegulatorsNode = true) :
    (env.matchResult < 0 →
      (act8600_pmic_probe env).ret = env.matchResult ∧
      (act8600_pmic_probe env).boundsCheckReached = false) ∧
    (env.matchResult = 0 →
      (act8600_pmic_probe env).ret = 0 ∧
      (act8600_pmic_probe env).registeredFinal = [] ∧
      (act8600_pmic_probe env).boundsCheckReached = false) ∧
    (0 < env.matchResult → env.kzallocRegulatorsOk = true →
      (act8600_pmic_probe env).boundsCheckReached = true) := by
  refine ⟨fun h => ?_, fun h => ?_, fun h hk => ?_⟩
  · have hm : env.matchResult ≤ 0 := by omega
    simp [act8600_pmic_probe, h1, hm, h]
  · simp [act8600_pmic_probe, h1, h]
  · have hm : ¬env.matchResult ≤ 0 := by omega
    by_cases hb : (ACT8600_REG_NUM : Int) < env.matchResult
    · simp [act8600_pmic_probe, h1, hm, hk, hb]
    · by_cases ha : env.kzallocAct8600Ok
      · cases hr : env.regmapResult with
        | error e => simp [act8600_pmic_probe, h1, hm, hk, hb, ha, hr]
        | ok u => simp [act8600_pmic_probe, h1, hm, hk, hb, ha, hr]
      · simp [act8600_pmic_probe, h1, hm, hk, hb, ha]

/-- Witness for C4 (amended) with a match error of `-22`. -/
theorem probe_match_step_witness :
    (act8600_pmic_probe { envAllOk with matchResult := -22 }).ret = -22 ∧
    (act8600_pmic_probe { envAllOk with matchResult := -22
      }).boundsCheckReached = false :=
  (probe_match_step { envAllOk with matchResult := -22 } rfl).1 (by decide)

/-- C5: once the probe reaches the registration step, it registers the 12
outputs in fixed descriptor order, and on the first failing registration it
aborts, reports that output's descriptor name, and leaves no outputs
registered — all 12 or none. -/
theorem probe_registers_all_or_none (env : ProbeEnv)
    (h1 : env.hasRegulatorsNode = true)
    (h2 : 0 < env.matchResult) (h3 : env.matchResult ≤ 12)
    (h4 : env.kzallocRegulatorsOk = true)
    (h5 : env.kzallocAct8600Ok = true)
    (h6 : env.regmapResult = .ok ()) :
    ((∀ i, i < 12 → env.registerResult i = .ok ()) →
      (act8600_pmic_probe env).ret = 0 ∧
      (act8600_pmic_probe env).registeredFinal =
        act8600_reg.map RegulatorDesc.name) ∧
    (∀ j, j < 12 → ∀ e, env.registerResult j = .error e →
      (∀ i, i < j → env.registerResult i = .ok ()) →
      (act8600_pmic_probe env).ret = e ∧
      (act8600_pmic_probe env).reportedName = some (regName j) ∧
      (act8600_pmic_probe env).registeredFinal = []) := by
  have hm : ¬env.matchResult ≤ 0 := by omega
  have h12 : ¬(12 : Int) < env.matchResult := by omega
  constructor
  · intro hok
    have hloop := registerLoop_all_ok env 12 0 []
      fun k _ hk2 => hok k (by omega)
    simp [act8600_pmic_probe, h1, hm, h4, h5, h6, ACT8600_REG_NUM, hloop, h12]
    decide
  · intro j hj e hje hpre
    have hloop := registerLoop_first_fail env 12 0 [] j e (Nat.zero_le j)
      (by omega) hje fun k _ hk2 => hpre k hk2
    simp [act8600_pmic_probe, h1, hm, h4, h5, h6, ACT8600_REG_NUM, hloop, h12]

/-- Witness for C5 with the all-successful environment: all 12 outputs
registered in descriptor order. -/
theorem probe_registers_all_or_none_witness :
    (act8600_pmic_probe envAllOk).ret = 0 ∧
    (act8600_pmic_probe envAllOk).registeredFinal =
      act8600_reg.map RegulatorDesc.name :=
  (probe_registers_all_or_none envAllOk rfl (by decide) (by decide) rfl rfl
    rfl).1 fun i _ => rfl

end Act8600
